import Mathlib

/-!
Shallow embedding of `aiobgp/messages.py`: serialization and deserialization
of BGP messages.  Byte strings are modelled as `List Nat` (each element a
byte value); Python's `struct.pack('!H', n)` raises `struct.error` outside
[0, 0xFFFF] and `bytearray([t])` raises `ValueError` outside [0, 255], so the
encoder returns `Except` with an explicit error kind.  `struct.unpack_from`
reads of in-range indices are modelled with `List.getD` (all call sites have
already checked the buffer is long enough).
-/

def BGP_MESSAGE_HEADERLEN : Nat := 0x13

def BGP_MESSAGE_NIL : Nat := 0x0

def BGP_MESSAGE_OPEN : Nat := 0x1

def BGP_MESSAGE_UPDATE : Nat := 0x2

def BGP_MESSAGE_NOTIFICATION : Nat := 0x3

def BGP_MESSAGE_KEEPALIVE : Nat := 0x4

def BGP_MESSAGE_MARKER : List Nat := List.replicate 16 0xff

/-- Error kinds raised by `BGPMessage.encode_header` in the source:
the `assert self.__messagetype__ > BGP_MESSAGE_NIL` (the spec's
`InvalidMessageType`), the `struct.error` from `struct.pack` when the
length does not fit in 16 bits, and the `ValueError` from `bytearray`
when the type byte is out of range. -/
inductive EncodeError where
  | assertMessageType
  | packOverflow
  | byteRange
deriving DecidableEq, Repr

/-- The dict returned by `BGPMessage.decode_header`. -/
structure BGPHeader where
  length : Nat
  msg_type : Nat
deriving DecidableEq, Repr

/-- A `BGPMessage` instance: `cls` records which class the instance was
constructed from (its `__messagetype__`), `length` and `msg_type` are the
instance attributes set by `__init__` and overwritten by `decode`. -/
structure BGPMessage where
  cls : Nat
  length : Nat
  msg_type : Nat
deriving DecidableEq, Repr

/-- Model of `struct.pack('!H', n)`: two big-endian bytes, failing outside
[0, 0xFFFF]. -/
def struct_pack_H (n : Nat) : Option (List Nat) :=
  if n < 65536 then some [n / 256, n % 256] else none

/-- Model of `BGPMessage.__init__` for a class whose `__messagetype__` is `cls`. -/
def BGPMessage.init (cls : Nat) : BGPMessage :=
  { cls := cls, length := BGP_MESSAGE_HEADERLEN, msg_type := cls }

/-- Model of `BGPMessage.encode_header(self, data)`: asserts the message type is
greater than `BGP_MESSAGE_NIL`, then produces
`marker ++ pack('!H', len(data) + 19) ++ bytearray([msgtype]) ++ data`. -/
def BGPMessage.encode_header (msgtype : Nat) (data : List Nat) :
    Except EncodeError (List Nat) :=
  if msgtype > BGP_MESSAGE_NIL then
    match struct_pack_H (data.length + BGP_MESSAGE_HEADERLEN) with
    | some lenbytes =>
        if msgtype < 256 then
          Except.ok (BGP_MESSAGE_MARKER ++ lenbytes ++ [msgtype] ++ data)
        else Except.error EncodeError.byteRange
    | none => Except.error EncodeError.packOverflow
  else Except.error EncodeError.assertMessageType

/-- Model of `BGPMessage.encode(self)`: encode with an empty body. -/
def BGPMessage.encode (msgtype : Nat) : Except EncodeError (List Nat) :=
  BGPMessage.encode_header msgtype []

/-- Model of `BGPMessage.decode_header(data)`: `None` when fewer than 19 bytes,
otherwise the dict with the big-endian 16-bit `length` at offset 16 and the
`msg_type` byte at offset 18.  The marker bytes are never inspected. -/
def BGPMessage.decode_header (data : List Nat) : Option BGPHeader :=
  if data.length < BGP_MESSAGE_HEADERLEN then none
  else some { length := 256 * data.getD 16 0 + data.getD 17 0,
              msg_type := data.getD 18 0 }

/-- Model of `BGPMessage.decode(cls, data)`: `None` when fewer than 19 bytes or when
`decode_header` returns a falsy value; otherwise a fresh instance of `cls`
whose `length` and `msg_type` are overwritten from the header. -/
def BGPMessage.decode (cls : Nat) (data : List Nat) : Option BGPMessage :=
  if data.length < BGP_MESSAGE_HEADERLEN then none
  else
    match BGPMessage.decode_header data with
    | none => none
    | some header =>
        some { cls := cls, length := header.length, msg_type := header.msg_type }

/-- The `bgp_message_types` registry: maps a type byte to the
`__messagetype__` of the registered class, `none` when unregistered. -/
def bgp_message_types (t : Nat) : Option Nat :=
  if t = BGP_MESSAGE_OPEN then some BGP_MESSAGE_OPEN
  else if t = BGP_MESSAGE_UPDATE then some BGP_MESSAGE_UPDATE
  else if t = BGP_MESSAGE_NOTIFICATION then some BGP_MESSAGE_NOTIFICATION
  else if t = BGP_MESSAGE_KEEPALIVE then some BGP_MESSAGE_KEEPALIVE
  else none

/-- Model of `bgp_read_message(data)`: one message per call, returning the decoded
message (or `None`) together with the number of bytes consumed.  The header
is decoded via `BGPMessage.decode` on the first 19 bytes (the `none` arm of
that inner match is unreachable: Python would raise `AttributeError` on
`None.length`, but the length guard above makes the slice exactly 19 bytes). -/
def bgp_read_message (data : List Nat) : Option BGPMessage × Nat :=
  if data.length < BGP_MESSAGE_HEADERLEN then (none, 0)
  else
    match BGPMessage.decode BGP_MESSAGE_NIL (data.take BGP_MESSAGE_HEADERLEN) with
    | none => (none, 0)
    | some header =>
        if data.length < header.length then (none, 0)
        else
          match bgp_message_types header.msg_type with
          | none => (none, header.length)
          | some msgclass =>
              (BGPMessage.decode msgclass (data.take header.length), header.length)

/-- The 19-byte wire image of an encoded KEEPALIVE message. -/
def keepalive_wire : List Nat :=
  List.replicate 16 0xff ++ [0x00, 0x13, 0x04]

theorem headerlen_val : BGP_MESSAGE_HEADERLEN = 19 := rfl

theorem nil_val : BGP_MESSAGE_NIL = 0 := rfl

theorem decode_header_of_le (data : List Nat) (h : 19 ≤ data.length) :
    BGPMessage.decode_header data =
      some { length := 256 * data.getD 16 0 + data.getD 17 0,
             msg_type := data.getD 18 0 } := by
  unfold BGPMessage.decode_header
  rw [if_neg (by rw [headerlen_val]; omega)]

theorem decode_header_some_le (data : List Nat) (h : BGPHeader)
    (hh : BGPMessage.decode_header data = some h) : 19 ≤ data.length := by
  unfold BGPMessage.decode_header at hh
  by_cases hlt : data.length < BGP_MESSAGE_HEADERLEN
  · rw [if_pos hlt] at hh
    cases hh
  · rw [headerlen_val] at hlt
    omega

theorem getD_take_of_lt (l : List Nat) (n i d : Nat) (h : i < n) :
    (l.take n).getD i d = l.getD i d := by
  simp [List.getD_eq_getElem?_getD, List.getElem?_take, h]

theorem decode_header_take (l : List Nat) (n : Nat) (hn : 19 ≤ n)
    (hl : 19 ≤ l.length) :
    BGPMessage.decode_header (l.take n) = BGPMessage.decode_header l := by
  rw [decode_header_of_le _ (by simp [List.length_take]; omega),
      decode_header_of_le _ hl,
      getD_take_of_lt _ _ _ _ (by omega : (16 : Nat) < n),
      getD_take_of_lt _ _ _ _ (by omega : (17 : Nat) < n),
      getD_take_of_lt _ _ _ _ (by omega : (18 : Nat) < n)]

theorem decode_header_append (l extra : List Nat) (hl : 19 ≤ l.length) :
    BGPMessage.decode_header (l ++ extra) = BGPMessage.decode_header l := by
  rw [decode_header_of_le _ (by simp [List.length_append]; omega),
      decode_header_of_le _ hl,
      List.getD_append _ _ _ _ (by omega),
      List.getD_append _ _ _ _ (by omega),
      List.getD_append _ _ _ _ (by omega)]

theorem decode_of_header (cls : Nat) (data : List Nat) (h : BGPHeader)
    (hh : BGPMessage.decode_header data = some h) :
    BGPMessage.decode cls data =
      some { cls := cls, length := h.length, msg_type := h.msg_type } := by
  have hl := decode_header_some_le data h hh
  unfold BGPMessage.decode
  rw [if_neg (by rw [headerlen_val]; omega), hh]

theorem decode_length_lt (cls : Nat) (data : List Nat)
    (hl : data.length < 19) : BGPMessage.decode cls data = none := by
  unfold BGPMessage.decode
  rw [if_pos (by rw [headerlen_val]; omega)]

theorem bgp_read_message_of_header (data : List Nat) (h : BGPHeader)
    (hh : BGPMessage.decode_header data = some h) :
    bgp_read_message data =
      if data.length < h.length then (none, 0)
      else
        match bgp_message_types h.msg_type with
        | none => (none, h.length)
        | some msgclass =>
            (BGPMessage.decode msgclass (data.take h.length), h.length) := by
  have hl := decode_header_some_le data h hh
  have htake : BGPMessage.decode_header (data.take BGP_MESSAGE_HEADERLEN) = some h := by
    rw [headerlen_val, decode_header_take data 19 (le_refl 19) hl, hh]
  have hdec : BGPMessage.decode BGP_MESSAGE_NIL (data.take BGP_MESSAGE_HEADERLEN) =
      some { cls := BGP_MESSAGE_NIL, length := h.length, msg_type := h.msg_type } :=
    decode_of_header _ _ _ htake
  unfold bgp_read_message
  rw [if_neg (by rw [headerlen_val]; omega), hdec]

/-- Claim C5: encoding a KEEPALIVE produces exactly the 19 bytes
`0xFF*16 || 0x00 0x13 || 0x04`, and `bgp_read_message` on that buffer
returns a KeepAlive message (class `BGP_MESSAGE_KEEPALIVE`, length 19,
type 4) with consumed count 19. -/
theorem keepalive_wire_roundtrip :
    BGPMessage.encode BGP_MESSAGE_KEEPALIVE = Except.ok keepalive_wire ∧
    keepalive_wire.length = 19 ∧
    bgp_read_message keepalive_wire =
      (some { cls := BGP_MESSAGE_KEEPALIVE, length := 19,
              msg_type := BGP_MESSAGE_KEEPALIVE }, 19) :=
  ⟨by rfl, by decide, by decide⟩

/-- Claim C1 (code bug evaluation): a 19-byte buffer whose first marker byte
is corrupted to 0x00 still decodes to a normal header, and
`bgp_read_message` even returns a full KeepAlive message from it; no
marker error is ever produced, contradicting the claim. -/
theorem marker_corruption_not_detected :
    BGPMessage.decode_header (0x00 :: (List.replicate 15 0xff ++ [0x00, 0x13, 0x04])) =
      some { length := 19, msg_type := 4 } ∧
    bgp_read_message (0x00 :: (List.replicate 15 0xff ++ [0x00, 0x13, 0x04])) =
      (some { cls := BGP_MESSAGE_KEEPALIVE, length := 19,
              msg_type := BGP_MESSAGE_KEEPALIVE }, 19) := by
  decide

/-- Claim C8 (counterexample): `decode_header` places no lower bound on the
decoded length field: a well-marked 19-byte buffer whose length field is 0
decodes to a header with `length = 0 < 19`, refuting the invariant for
headers produced by header decode. -/
theorem decode_header_small_length_field :
    BGPMessage.decode_header (List.replicate 16 0xff ++ [0x00, 0x00, 0x04]) =
      some { length := 0, msg_type := 4 } ∧
    (0 : Nat) < 19 := by
  decide

/-- Claim C9: for every buffer of at least 19 bytes, `decode_header` returns
a header (never `none`, never an error) whose `length` is the big-endian
16-bit value at offset 16 and whose `msg_type` is the byte at offset 18,
and replacing the 16 marker bytes by any other 16 bytes does not change the
result: the marker region is read but never inspected. -/
theorem decode_header_ignores_marker (data : List Nat) (hl : 19 ≤ data.length) :
    BGPMessage.decode_header data =
      some { length := 256 * data.getD 16 0 + data.getD 17 0,
             msg_type := data.getD 18 0 } ∧
    ∀ m : List Nat, m.length = 16 →
      BGPMessage.decode_header (m ++ data.drop 16) = BGPMessage.decode_header data := by
  refine ⟨decode_header_of_le data hl, ?_⟩
  intro m hm
  have h16 : ∀ i d : Nat, 16 ≤ i → (m ++ data.drop 16).getD i d = data.getD i d := by
    intro i d hi
    rw [List.getD_append_right _ _ _ _ (by omega), hm,
        List.getD_eq_getElem?_getD, List.getD_eq_getElem?_getD, List.getElem?_drop]
    have hidx : 16 + (i - 16) = i := by omega
    rw [hidx]
  rw [decode_header_of_le _ (by simp [List.length_append, List.length_drop, hm]; omega),
      decode_header_of_le _ hl,
      h16 16 0 (by omega), h16 17 0 (by omega), h16 18 0 (by omega)]

/-- Claim C9 witness: a buffer whose marker is 16 zero bytes still decodes
to a normal header. -/
theorem decode_header_ignores_marker_witness :
    BGPMessage.decode_header (List.replicate 16 0 ++ [0, 19, 4]) =
      some { length := 19, msg_type := 4 } := by
  have h := (decode_header_ignores_marker (List.replicate 16 0 ++ [0, 19, 4])
    (by decide)).1
  exact h.trans (by decide)

/-- Claim C3: for every buffer shorter than 19 bytes, and for every buffer
whose decoded header declares a length strictly greater than the buffer,
`bgp_read_message` returns `(none, 0)`, consuming no bytes. -/
theorem read_message_partial_data (data : List Nat) :
    (data.length < 19 → bgp_read_message data = (none, 0)) ∧
    (∀ h : BGPHeader, BGPMessage.decode_header data = some h →
      data.length < h.length → bgp_read_message data = (none, 0)) := by
  constructor
  · intro hl
    unfold bgp_read_message
    rw [if_pos (by rw [headerlen_val]; omega)]
  · intro h hh hlt
    rw [bgp_read_message_of_header data h hh, if_pos hlt]

/-- Claim C3 witness: a 3-byte buffer, and a 19-byte buffer whose header
declares length 100, both return `(none, 0)`. -/
theorem read_message_partial_data_witness :
    bgp_read_message [0, 1, 2] = (none, 0) ∧
    bgp_read_message (List.replicate 16 0xff ++ [0, 100, 4]) = (none, 0) :=
  ⟨(read_message_partial_data [0, 1, 2]).1 (by decide),
   (read_message_partial_data (List.replicate 16 0xff ++ [0, 100, 4])).2
     { length := 100, msg_type := 4 } (by decide) (by decide)⟩

/-- Claim C4: a buffer holding a complete well-formed message (valid marker,
length at least 19, fully buffered) whose type byte is unregistered yields
`(none, header.length)`: no message, exactly `header.length` bytes consumed,
and no error. -/
theorem read_message_unknown_type_skip (data : List Nat) (h : BGPHeader)
    (hh : BGPMessage.decode_header data = some h)
    ( _hmarker : data.take 16 = BGP_MESSAGE_MARKER)
    ( _hmin : 19 ≤ h.length)
    (hcomplete : h.length ≤ data.length)
    (hunreg : bgp_message_types h.msg_type = none) :
    bgp_read_message data = (none, h.length) := by
  rw [bgp_read_message_of_header data h hh, if_neg (by omega), hunreg]

/-- Claim C4 witness: a 19-byte message with valid marker and unregistered
type byte 9 is skipped whole. -/
theorem read_message_unknown_type_skip_witness :
    bgp_read_message (List.replicate 16 0xff ++ [0, 19, 9]) = (none, 19) :=
  read_message_unknown_type_skip (List.replicate 16 0xff ++ [0, 19, 9])
    { length := 19, msg_type := 9 }
    (by decide) (by decide) (by decide) (by decide) (by decide)

/-- Claim C6: on a buffer made of one complete message of a registered type
followed by arbitrary extra bytes, `bgp_read_message` consumes exactly
`header.length` bytes and dropping the consumed count leaves exactly the
extra bytes; and on two concatenated KEEPALIVE messages (38 bytes) two
sequential calls each return consumed = 19 and drain the buffer. -/
theorem read_message_consumes_one_message (msg extra : List Nat) (h : BGPHeader)
    (hh : BGPMessage.decode_header msg = some h)
    (hcomplete : msg.length = h.length)
    (hreg : (bgp_message_types h.msg_type).isSome) :
    (bgp_read_message (msg ++ extra)).2 = h.length ∧
    (msg ++ extra).drop (bgp_read_message (msg ++ extra)).2 = extra ∧
    (keepalive_wire ++ keepalive_wire).length = 38 ∧
    bgp_read_message (keepalive_wire ++ keepalive_wire) =
      (some { cls := 4, length := 19, msg_type := 4 }, 19) ∧
    bgp_read_message ((keepalive_wire ++ keepalive_wire).drop 19) =
      (some { cls := 4, length := 19, msg_type := 4 }, 19) ∧
    ((keepalive_wire ++ keepalive_wire).drop 19).drop 19 = [] := by
  have hl := decode_header_some_le msg h hh
  have hh2 : BGPMessage.decode_header (msg ++ extra) = some h := by
    rw [decode_header_append msg extra hl, hh]
  obtain ⟨cls, hcls⟩ := Option.isSome_iff_exists.mp hreg
  have hread : (bgp_read_message (msg ++ extra)).2 = h.length := by
    rw [bgp_read_message_of_header _ h hh2,
        if_neg (by simp [List.length_append]; omega), hcls]
  refine ⟨hread, ?_, by decide, by decide, by decide, by decide⟩
  rw [hread, ← hcomplete, List.drop_left]

/-- Claim C6 witness: a KEEPALIVE followed by three extra bytes consumes 19
bytes and leaves exactly the extra bytes. -/
theorem read_message_consumes_one_message_witness :
    (bgp_read_message (keepalive_wire ++ [7, 7, 7])).2 = 19 ∧
    (keepalive_wire ++ [7, 7, 7]).drop
      (bgp_read_message (keepalive_wire ++ [7, 7, 7])).2 = [7, 7, 7] := by
  have h := read_message_consumes_one_message keepalive_wire [7, 7, 7]
    { length := 19, msg_type := 4 } (by decide) (by decide) (by decide)
  exact ⟨h.1, h.2.1⟩

/-- Claim C10: a buffer of at least 19 bytes whose header declares a length
field strictly below 19 with a registered type byte yields `(none, L)`:
the per-type decode of the truncated slice returns no message, yet only L
bytes are reported consumed; when L = 0 the result coincides with the
insufficient-data result on an empty buffer. -/
theorem read_message_short_length_field (data : List Nat) (h : BGPHeader)
    (hh : BGPMessage.decode_header data = some h)
    (hshort : h.length < 19)
    (hreg : (bgp_message_types h.msg_type).isSome) :
    bgp_read_message data = (none, h.length) ∧
    (h.length = 0 → bgp_read_message data = bgp_read_message []) := by
  have hl := decode_header_some_le data h hh
  obtain ⟨cls, hcls⟩ := Option.isSome_iff_exists.mp hreg
  have hmain : bgp_read_message data = (none, h.length) := by
    rw [bgp_read_message_of_header data h hh, if_neg (by omega), hcls]
    show (BGPMessage.decode cls (List.take h.length data), h.length) = (none, h.length)
    rw [decode_length_lt cls (List.take h.length data)
      (by rw [List.length_take]; omega)]
  exact ⟨hmain, fun h0 => by rw [hmain, h0]; rfl⟩

/-- Claim C10 witness: a 19-byte buffer whose length field is 5 and whose
type byte is 4 (registered) returns `(none, 5)`. -/
theorem read_message_short_length_field_witness :
    bgp_read_message (List.replicate 16 0xff ++ [0, 5, 4]) = (none, 5) :=
  (read_message_short_length_field (List.replicate 16 0xff ++ [0, 5, 4])
    { length := 5, msg_type := 4 } (by decide) (by decide) (by decide)).1

/-- Claim C2 (counterexample): `encode_header` is not total in the body: for
type OPEN and a 65517-byte body the length 65517 + 19 = 65536 does not fit
the `!H` pack format, so encoding raises instead of producing a buffer, and
no header can be decoded back; the round-trip fails at this input. -/
theorem encode_overflow_refutes_roundtrip :
    BGPMessage.encode_header BGP_MESSAGE_OPEN (List.replicate 65517 0) =
      Except.error EncodeError.packOverflow := by
  unfold BGPMessage.encode_header
  rw [if_pos (by decide), List.length_replicate]
  rfl

/-- Helper: decoding the header of a well-shaped wire buffer
`marker ++ [x, y] ++ [t] ++ rest` recovers `256 * x + y` and `t`. -/
theorem decode_header_wire (x y t : Nat) (rest : List Nat) :
    BGPMessage.decode_header (BGP_MESSAGE_MARKER ++ [x, y] ++ [t] ++ rest) =
      some { length := 256 * x + y, msg_type := t } := by
  have hassoc : BGP_MESSAGE_MARKER ++ [x, y] ++ [t] ++ rest =
      BGP_MESSAGE_MARKER ++ (x :: y :: t :: rest) := by
    simp [List.append_assoc]
  rw [hassoc,
      decode_header_of_le _ (by simp [List.length_append, BGP_MESSAGE_MARKER])]
  have h16 : (BGP_MESSAGE_MARKER ++ (x :: y :: t :: rest)).getD 16 0 = x := by
    rw [List.getD_append_right _ _ _ _ (by simp [BGP_MESSAGE_MARKER])]
    simp [BGP_MESSAGE_MARKER]
  have h17 : (BGP_MESSAGE_MARKER ++ (x :: y :: t :: rest)).getD 17 0 = y := by
    rw [List.getD_append_right _ _ _ _ (by simp [BGP_MESSAGE_MARKER])]
    simp [BGP_MESSAGE_MARKER]
  have h18 : (BGP_MESSAGE_MARKER ++ (x :: y :: t :: rest)).getD 18 0 = t := by
    rw [List.getD_append_right _ _ _ _ (by simp [BGP_MESSAGE_MARKER])]
    simp [BGP_MESSAGE_MARKER]
  rw [h16, h17, h18]

/-- Helper: the successful branch of `encode_header`. -/
theorem encode_header_ok (t : Nat) (data lb : List Nat)
    (ht : 0 < t) (h256 : t < 256)
    (hp : struct_pack_H (data.length + BGP_MESSAGE_HEADERLEN) = some lb) :
    BGPMessage.encode_header t data =
      Except.ok (BGP_MESSAGE_MARKER ++ lb ++ [t] ++ data) := by
  unfold BGPMessage.encode_header
  rw [hp, if_pos (show t > BGP_MESSAGE_NIL by rw [nil_val]; exact ht)]
  exact if_pos h256

/-- Claim C2 (amended): for every supported type T in {OPEN, UPDATE,
NOTIFICATION, KEEPALIVE} and every body b with `len(b) + 19 ≤ 0xFFFF`,
encoding succeeds and decoding the header of the result yields length
`len(b) + 19` and type T. -/
theorem header_roundtrip (T : Nat) (b : List Nat)
    (hT : T = BGP_MESSAGE_OPEN ∨ T = BGP_MESSAGE_UPDATE ∨
          T = BGP_MESSAGE_NOTIFICATION ∨ T = BGP_MESSAGE_KEEPALIVE)
    (hb : b.length + 19 ≤ 65535) :
    ∃ enc, BGPMessage.encode_header T b = Except.ok enc ∧
      BGPMessage.decode_header enc =
        some { length := b.length + 19, msg_type := T } := by
  have hT1 : 0 < T ∧ T < 256 := by
    rcases hT with h | h | h | h <;> subst h <;> exact ⟨by decide, by decide⟩
  have hpack : struct_pack_H (b.length + BGP_MESSAGE_HEADERLEN) =
      some [(b.length + BGP_MESSAGE_HEADERLEN) / 256,
            (b.length + BGP_MESSAGE_HEADERLEN) % 256] := by
    unfold struct_pack_H
    rw [if_pos (by rw [headerlen_val]; omega)]
  have henc : BGPMessage.encode_header T b =
      Except.ok (BGP_MESSAGE_MARKER ++
        [(b.length + BGP_MESSAGE_HEADERLEN) / 256,
         (b.length + BGP_MESSAGE_HEADERLEN) % 256] ++ [T] ++ b) :=
    encode_header_ok T b _ hT1.1 hT1.2 hpack
  refine ⟨_, henc, ?_⟩
  rw [decode_header_wire]
  have hmod : 256 * ((b.length + BGP_MESSAGE_HEADERLEN) / 256) +
      (b.length + BGP_MESSAGE_HEADERLEN) % 256 = b.length + 19 := by
    rw [Nat.div_add_mod, headerlen_val]
  rw [hmod]

/-- Claim C2 witness: the round-trip at type KEEPALIVE with body `[7, 8]`. -/
theorem header_roundtrip_witness :
    ∃ enc, BGPMessage.encode_header BGP_MESSAGE_KEEPALIVE [7, 8] = Except.ok enc ∧
      BGPMessage.decode_header enc =
        some { length := 21, msg_type := BGP_MESSAGE_KEEPALIVE } := by
  have h := header_roundtrip BGP_MESSAGE_KEEPALIVE [7, 8]
    (Or.inr (Or.inr (Or.inr rfl))) (by decide)
  simpa using h

/-- Claim C7 (counterexample): encoding can fail even for types strictly
greater than 0: type 4 with a 65517-byte body overflows the 16-bit length
pack, and type 300 does not fit in the single type byte. -/
theorem encode_positive_type_can_fail :
    (0 < BGP_MESSAGE_KEEPALIVE ∧
      BGPMessage.encode_header BGP_MESSAGE_KEEPALIVE (List.replicate 65517 1) =
        Except.error EncodeError.packOverflow) ∧
    (0 < 300 ∧
      BGPMessage.encode_header 300 [] = Except.error EncodeError.byteRange) := by
  refine ⟨⟨by decide, ?_⟩, ⟨by decide, by rfl⟩⟩
  unfold BGPMessage.encode_header
  rw [if_pos (by decide), List.length_replicate]
  rfl

/-- Claim C7 (amended): encoding with type NIL/0 fails with the
message-type assertion (the spec's `InvalidMessageType`); encoding succeeds
for every type in (0, 256) whenever the body keeps the total length within
the 16-bit length field. -/
theorem encode_header_success_conditions :
    (∀ data : List Nat,
      BGPMessage.encode_header BGP_MESSAGE_NIL data =
        Except.error EncodeError.assertMessageType) ∧
    (∀ t : Nat, ∀ data : List Nat, 0 < t → t < 256 →
      data.length + 19 ≤ 65535 →
      ∃ out, BGPMessage.encode_header t data = Except.ok out) := by
  constructor
  · intro data
    unfold BGPMessage.encode_header
    rw [if_neg (by decide)]
  · intro t data ht h256 hlen
    have hpack : struct_pack_H (data.length + BGP_MESSAGE_HEADERLEN) =
        some [(data.length + BGP_MESSAGE_HEADERLEN) / 256,
              (data.length + BGP_MESSAGE_HEADERLEN) % 256] := by
      unfold struct_pack_H
      rw [if_pos (by rw [headerlen_val]; omega)]
    exact ⟨_, encode_header_ok t data _ ht h256 hpack⟩

/-- Claim C7 witness: type 0 fails the assertion on body `[1]`; type 3 with
body `[1, 2]` encodes successfully. -/
theorem encode_header_success_conditions_witness :
    BGPMessage.encode_header BGP_MESSAGE_NIL [1] =
      Except.error EncodeError.assertMessageType ∧
    ∃ out, BGPMessage.encode_header 3 [1, 2] = Except.ok out :=
  ⟨encode_header_success_conditions.1 [1],
   encode_header_success_conditions.2 3 [1, 2] (by decide) (by decide) (by decide)⟩

/-- Claim C8 (amended): every `BGPMessage` produced by the constructor has
length exactly the 19-byte header length, and every message returned by
`bgp_read_message` has length at least 19; headers produced by
`decode_header` alone, by contrast, carry the raw 16-bit length field and
may be smaller (see the counterexample). -/
theorem length_at_least_19_for_constructed_and_read :
    (∀ cls : Nat, 19 ≤ (BGPMessage.init cls).length) ∧
    (∀ data : List Nat, ∀ m : BGPMessage, ∀ n : Nat,
      bgp_read_message data = (some m, n) → 19 ≤ m.length) := by
  constructor
  · intro cls
    exact le_refl _
  · intro data m n hread
    by_cases hlt : data.length < 19
    · unfold bgp_read_message at hread
      rw [if_pos (by rw [headerlen_val]; omega)] at hread
      simp at hread
    · push_neg at hlt
      obtain ⟨h, hh⟩ : ∃ h, BGPMessage.decode_header data = some h :=
        ⟨_, decode_header_of_le data hlt⟩
      rw [bgp_read_message_of_header data h hh] at hread
      by_cases hlen : data.length < h.length
      · rw [if_pos hlen] at hread
        simp at hread
      · rw [if_neg hlen] at hread
        cases hcls : bgp_message_types h.msg_type with
        | none =>
            rw [hcls] at hread
            simp at hread
        | some cls =>
            rw [hcls] at hread
            simp only [Prod.mk.injEq] at hread
            obtain ⟨h1, h2⟩ := hread
            by_cases h19 : (data.take h.length).length < 19
            · rw [decode_length_lt cls _ h19] at h1
              cases h1
            · push_neg at h19
              have hlen19 : 19 ≤ h.length := by
                rw [List.length_take] at h19
                omega
              have htake : BGPMessage.decode_header (data.take h.length) = some h := by
                rw [decode_header_take data h.length hlen19 hlt, hh]
              rw [decode_of_header cls _ h htake] at h1
              injection h1 with h1
              rw [← h1]
              exact hlen19

/-- Claim C8 witness: the invariant at a constructed message of class 7 and
at the message `bgp_read_message` returns on the KEEPALIVE wire image. -/
theorem length_at_least_19_witness :
    19 ≤ (BGPMessage.init 7).length ∧
    19 ≤ ({ cls := 4, length := 19, msg_type := 4 } : BGPMessage).length :=
  ⟨length_at_least_19_for_constructed_and_read.1 7,
   length_at_least_19_for_constructed_and_read.2 keepalive_wire
     { cls := 4, length := 19, msg_type := 4 } 19 (by decide)⟩
